import Mathlib

/-!
Shallow embedding of `src/cloudhsm.py`, a CloudHSM cluster provisioning and
reconciliation script.

Modelling conventions:
* The remote control-plane state is a `World` (the cluster listing that
  `describe_clusters` would return at some instant).
* Remote reads that happen at different instants are oracles passed as
  parameters: a world per poll attempt, the HsmId returned by each
  `create_hsm` call, the tag listing per cluster id.
* Each procedure returns the list of externally visible effects it performed
  (mutating API calls, sleeps, prints) paired with `none` for a normal return
  or `some e` for an uncaught Python exception.
-/

/-- A tag key/value pair as returned by `list_tags`. -/
structure Tag where
  key : String
  value : String
deriving Repr, DecidableEq

/-- An HSM instance as reported inside a cluster by `describe_clusters`. -/
structure Hsm where
  hsmId : String
  state : String
deriving Repr, DecidableEq

/-- A cluster as reported by `describe_clusters`. -/
structure Cluster where
  clusterId : String
  state : String
  hsms : List Hsm
deriving Repr, DecidableEq

/-- The remote control-plane state: the current list of clusters. -/
structure World where
  clusters : List Cluster
deriving Repr, DecidableEq

/-- Python exceptions the script can raise or propagate. -/
inductive PyErr where
  | nameError (name : String)
  | indexError
  | paramValidationError
deriving Repr, DecidableEq

/-- Externally visible effects of the script: mutating API calls, sleeps and
prints.  Read-only API calls (`describe_clusters`, `list_tags`) are not
traced; their answers come from the `World` oracles. -/
inductive Effect where
  | createCluster (subnetIds : List String) (hsmType : String)
  | createHsm (clusterId az : String)
  | deleteHsm (clusterId hsmId : String)
  | tagResource (resourceId : Option String) (tagList : List Tag)
  | sleep (seconds : Nat)
  | print (msg : String)
deriving Repr, DecidableEq

/-- Result of running a procedure: the effects performed, and `none` for a
normal return or `some e` for an uncaught exception. -/
abbrev Proc := List Effect × Option PyErr

/-- `describe_clusters(Filters={'clusterIds': [cluster_id]})`: the clusters
whose id matches the requested one. -/
def describeCluster (w : World) (cluster_id : String) : List Cluster :=
  w.clusters.filter (fun c => c.clusterId == cluster_id)

/-- `check_cluster_state` (cloudhsm.py lines 8-29): compares the state of
`response['Clusters'][0]` against the given string; indexing an empty
filtered listing raises IndexError. -/
def check_cluster_state (w : World) (cluster_id state : String) : Except PyErr Bool :=
  match describeCluster w cluster_id with
  | [] => Except.error PyErr.indexError
  | c :: _ => Except.ok (c.state == state)

/-- The for-loop of `check_hsm_state` (lines 51-56): first HSM whose HsmId
matches decides the answer; no match falls off the loop, returning None. -/
def hsmStateLookup (hsms : List Hsm) (hsm_id state : String) : Option Bool :=
  match hsms with
  | [] => none
  | h :: rest =>
    if h.hsmId == hsm_id then some (h.state == state)
    else hsmStateLookup rest hsm_id state

/-- `check_hsm_state` (cloudhsm.py lines 32-56).  Returns `some true` /
`some false` when the HsmId is found, `none` (Python None, falsy) when it is
not; an empty filtered cluster listing raises IndexError. -/
def check_hsm_state (w : World) (cluster_id hsm_id state : String) :
    Except PyErr (Option Bool) :=
  match describeCluster w cluster_id with
  | [] => Except.error PyErr.indexError
  | c :: _ => Except.ok (hsmStateLookup c.hsms hsm_id state)

/-- Python truthiness of an `Option Bool`: None is falsy. -/
def pyTruthy : Option Bool → Bool
  | none => false
  | some b => b

/-- Python `format` rendering of a possibly-None string. -/
def optStr : Option String → String
  | none => "None"
  | some s => s

def noNewMsg (cid : String) : String :=
  "* No new HSM instances are required in cluster: " ++ cid ++ "."

def mustInitMsg (cid : String) : String :=
  "** Number of HSM instances in cluster: " ++ cid ++
    " is lower than required but the cluster must be initialised first to increase the number of HSM instances."

def lowerMsg (cid : String) : String :=
  "** Number of HSM instances in cluster: " ++ cid ++ " is lower than required."

def higherMsg (cid : String) : String :=
  "** Number of HSM instances in cluster: " ++ cid ++ " is higher than required."

def creatingHsmMsg (hid cid : String) : String :=
  "** Creating HSM instance: " ++ hid ++ " in cluster: " ++ cid ++ "."

def hsmWaitMsg (hid : String) : String :=
  "* Waiting for initialization of HSM instance: " ++ hid ++ ", sleeping for 60 seconds."

def hsmReadyMsg (hid : String) : String :=
  "* HSM instance: " ++ hid ++ " is ready."

def deletingHsmMsg (hid cid : String) : String :=
  "** Deleting HSM instance: " ++ hid ++ " in cluster: " ++ cid ++ "."

def taggedMsg (cid : Option String) (k v : String) : String :=
  "** Tagged cluster: " ++ optStr cid ++ " with tag name: " ++ k ++
    " and value: " ++ v ++ "."

def createdMsg (cid : String) : String :=
  "** Created cluster: " ++ cid ++ "."

def clusterWaitMsg (cid : String) : String :=
  "* Waiting for creation of cluster: " ++ cid ++ ", sleeping for 10 seconds."

def clusterReadyMsg (cid : String) : String :=
  "* Cluster: " ++ cid ++ " is ready."

def checkingMsg (k v : String) : String :=
  "* Checking clusters list for cluster tag name: " ++ k ++ " and value: " ++ v ++ "."

def foundMsg (cid : String) : String :=
  "* Found cluster: " ++ cid ++ "."

def notFoundMsg : String :=
  "** Required cluster not found, creating new one."

/-- The polling loop pattern `while not check(..) and limit_counter < bound:`
(cloudhsm.py lines 98-104 and 167-173), run with `remaining = bound - counter`
steps left.  The check is re-evaluated on every loop test, even the one that
exits on the counter, exactly as Python short-circuits the condition; each
iteration prints the waiting message and sleeps `interval` seconds. -/
def pollFrom (check : Nat → Except PyErr Bool) (msg : String) (interval : Nat) :
    Nat → Nat → Proc
  | counter, remaining =>
    match check counter with
    | Except.error e => ([], some e)
    | Except.ok true => ([], none)
    | Except.ok false =>
      match remaining with
      | 0 => ([], none)
      | r + 1 =>
        let rest := pollFrom check msg interval (counter + 1) r
        (Effect.print msg :: Effect.sleep interval :: rest.1, rest.2)

/-- `init_cluster` (cloudhsm.py lines 146-174): requests cluster creation,
then polls `check_cluster_state(cluster_id, 'UNINITIALIZED')` every 10
seconds with ceiling 20, then prints the ready message.  The function body
has no return statement, so the Python function returns None; accordingly
only the effect trace comes back to the caller. -/
def init_cluster (newClusterId : String) (clusterPoll : Nat → World)
    (cluster_subnet_id hsm_type : String) : Proc :=
  let cluster_id := newClusterId
  let head := [Effect.createCluster [cluster_subnet_id] hsm_type,
               Effect.print (createdMsg cluster_id)]
  let poll := pollFrom
      (fun n => check_cluster_state (clusterPoll n) cluster_id "UNINITIALIZED")
      (clusterWaitMsg cluster_id) 10 0 20
  match poll.2 with
  | some e => (head ++ poll.1, some e)
  | none => (head ++ poll.1 ++ [Effect.print (clusterReadyMsg cluster_id)], none)

/-- The value bound to the name `cluster_az` when `set_cluster_hsm_count`
evaluates it (cloudhsm.py line 93): the name is neither local to
`set_cluster_hsm_count` nor a module-level global (it exists only as a
parameter of the `create_cluster` command, line 183), so Python's name
lookup finds no binding and raises NameError. -/
def globalClusterAz : Option String := none

/-- The loop test of the `create_hsm` polling
(`while not check_hsm_state(cluster_id, hsm_id, 'ACTIVE')`, line 99):
the Option Bool result is forced through Python truthiness. -/
def hsmActiveCheck (hsmPoll : Nat → Nat → World) (cid : String)
    (newHsmId : Nat → String) (i : Nat) : Nat → Except PyErr Bool :=
  fun n => Except.map pyTruthy (check_hsm_state (hsmPoll i n) cid (newHsmId i) "ACTIVE")

/-- The scale-up loop `for i in xrange(cluster_hsm_count):` (lines 91-105),
run with index `i` and `remaining` iterations left.  Each iteration first
evaluates the arguments of `client.create_hsm`, where looking up
`cluster_az` in the environment `azEnv` may raise NameError; then records
the creation, prints, and polls the new HSM every 60 seconds with
ceiling 15. -/
def createLoopAux (azEnv : Option String) (cid : String) (newHsmId : Nat → String)
    (hsmPoll : Nat → Nat → World) : Nat → Nat → Proc
  | _, 0 => ([], none)
  | i, r + 1 =>
    match azEnv with
    | none => ([], some (PyErr.nameError "cluster_az"))
    | some az =>
      let hsm_id := newHsmId i
      let head := [Effect.createHsm cid az, Effect.print (creatingHsmMsg hsm_id cid)]
      let poll := pollFrom (hsmActiveCheck hsmPoll cid newHsmId i) (hsmWaitMsg hsm_id) 60 0 15
      match poll.2 with
      | some e => (head ++ poll.1, some e)
      | none =>
        let rest := createLoopAux azEnv cid newHsmId hsmPoll (i + 1) r
        (head ++ poll.1 ++ [Effect.print (hsmReadyMsg hsm_id)] ++ rest.1, rest.2)

/-- The scale-down loop `for i in xrange(current - target):` (lines 112-116):
the i-th iteration reads `response['Clusters'][0]['Hsms'][i]['HsmId']` from
the listing fetched at entry and deletes that HSM; indexing past the end of
the listing would raise IndexError. -/
def deleteLoop (cid : String) : List Hsm → Nat → Proc
  | _, 0 => ([], none)
  | [], _ + 1 => ([], some PyErr.indexError)
  | h :: rest, n + 1 =>
    let tail := deleteLoop cid rest n
    (Effect.deleteHsm cid h.hsmId :: Effect.print (deletingHsmMsg h.hsmId cid) :: tail.1,
     tail.2)

/-- `set_cluster_hsm_count` (cloudhsm.py lines 59-116).  `w` is the answer to
the `describe_clusters` call at line 76, `guardW` the one behind the
`check_cluster_state` call in the guard at line 83, `azEnv` the environment
binding consulted for the name `cluster_az` at line 93 (in the real program
`globalClusterAz`), `newHsmId i` the HsmId returned by the i-th `create_hsm`
call, and `hsmPoll i n` the world at attempt `n` of the poll for the i-th
created HSM.  A None `cluster_id` (as passed by `create_cluster` after a
creation, line 232) fails boto3 parameter validation on the filter. -/
def set_cluster_hsm_count (w guardW : World) (azEnv : Option String)
    (newHsmId : Nat → String) (hsmPoll : Nat → Nat → World)
    (cluster_id : Option String) (cluster_hsm_count : Nat) : Proc :=
  match cluster_id with
  | none => ([], some PyErr.paramValidationError)
  | some cid =>
    match describeCluster w cid with
    | [] => ([], some PyErr.indexError)
    | c :: _ =>
      let current_hsm_count := c.hsms.length
      let scaleBranches : Proc :=
        if current_hsm_count < cluster_hsm_count then
          let loop := createLoopAux azEnv cid newHsmId hsmPoll 0 cluster_hsm_count
          (Effect.print (lowerMsg cid) :: loop.1, loop.2)
        else if cluster_hsm_count < current_hsm_count then
          let loop := deleteLoop cid c.hsms (current_hsm_count - cluster_hsm_count)
          (Effect.print (higherMsg cid) :: loop.1, loop.2)
        else ([], none)
      if current_hsm_count = cluster_hsm_count then
        ([Effect.print (noNewMsg cid)], none)
      else if current_hsm_count = 1 then
        match check_cluster_state guardW cid "UNINITIALIZED" with
        | Except.error e => ([], some e)
        | Except.ok true => ([Effect.print (mustInitMsg cid)], none)
        | Except.ok false => scaleBranches
      else scaleBranches

/-- `set_cluster_tags` (cloudhsm.py lines 119-143): a single `tag_resource`
call followed by a print.  The ResourceId is whatever `cluster_id` holds;
when it is None, botocore's client-side parameter validation rejects the
required string being None and raises ParamValidationError at the call
itself, before any request is sent and before the print. -/
def set_cluster_tags (cluster_id : Option String)
    (cluster_tag_key cluster_tag_value : String) : Proc :=
  match cluster_id with
  | none => ([], some PyErr.paramValidationError)
  | some cid =>
    ([Effect.tagResource (some cid) [⟨cluster_tag_key, cluster_tag_value⟩],
      Effect.print (taggedMsg (some cid) cluster_tag_key cluster_tag_value)], none)

/-- The inner tag loop of `create_cluster` (lines 212-215): scans this
cluster's tag list and reports whether some entry matches the key/value
pair (the Python loop sets cluster_id and breaks on the first match). -/
def findTagMatch (tags : List Tag) (key value : String) : Bool :=
  match tags with
  | [] => false
  | t :: rest =>
    if t.key == key && t.value == value then true else findTagMatch rest key value

/-- The discovery loops of `create_cluster` (lines 209-221): walk the cluster
listing in order, list each cluster's tags, and stop at the first cluster
carrying the key/value pair. -/
def discoverCluster (clusters : List Cluster) (listTags : String → List Tag)
    (key value : String) : Option String :=
  match clusters with
  | [] => none
  | c :: rest =>
    if findTagMatch (listTags c.clusterId) key value then some c.clusterId
    else discoverCluster rest listTags key value

/-- The `create_cluster` command (cloudhsm.py lines 177-232): discovery, then
conditional creation and tagging, then HSM count reconciliation.
`init_cluster` has no return statement, so after the creation branch the
local `cluster_id` still holds None; `set_cluster_tags` receives that None,
and only if it returns normally is `set_cluster_hsm_count` invoked with the
same None.  The CLI argument `cluster_az` is never referenced in the
body. -/
def create_cluster (w : World) (listTags : String → List Tag) (newClusterId : String)
    (clusterPoll : Nat → World) (countW guardW : World) (azEnv : Option String)
    (newHsmId : Nat → String) (hsmPoll : Nat → Nat → World)
    (cluster_tag_key cluster_tag_value cluster_subnet_id cluster_az : String)
    (cluster_hsm_count : Nat) : Proc :=
  let checking := Effect.print (checkingMsg cluster_tag_key cluster_tag_value)
  match discoverCluster w.clusters listTags cluster_tag_key cluster_tag_value with
  | some cid =>
    let count := set_cluster_hsm_count countW guardW azEnv newHsmId hsmPoll
        (some cid) cluster_hsm_count
    (checking :: Effect.print (foundMsg cid) :: count.1, count.2)
  | none =>
    let init := init_cluster newClusterId clusterPoll cluster_subnet_id "hsm1.medium"
    match init.2 with
    | some e => (checking :: Effect.print notFoundMsg :: init.1, some e)
    | none =>
      let tagged := set_cluster_tags none cluster_tag_key cluster_tag_value
      match tagged.2 with
      | some e => (checking :: Effect.print notFoundMsg :: (init.1 ++ tagged.1), some e)
      | none =>
        let count := set_cluster_hsm_count countW guardW azEnv newHsmId hsmPoll
            none cluster_hsm_count
        (checking :: Effect.print notFoundMsg :: (init.1 ++ tagged.1 ++ count.1),
         count.2)

/-- Number of `create_hsm` calls in a trace. -/
def countCreateHsm : List Effect → Nat
  | [] => 0
  | Effect.createHsm _ _ :: es => countCreateHsm es + 1
  | _ :: es => countCreateHsm es

/-- Number of `delete_hsm` calls in a trace. -/
def countDeleteHsm : List Effect → Nat
  | [] => 0
  | Effect.deleteHsm _ _ :: es => countDeleteHsm es + 1
  | _ :: es => countDeleteHsm es

/-- The HsmIds passed to `delete_hsm`, in call order. -/
def deletedIds : List Effect → List String
  | [] => []
  | Effect.deleteHsm _ hid :: es => hid :: deletedIds es
  | _ :: es => deletedIds es

/-- The ResourceIds passed to `tag_resource`, in call order. -/
def taggedIds : List Effect → List (Option String)
  | [] => []
  | Effect.tagResource rid _ :: es => rid :: taggedIds es
  | _ :: es => taggedIds es

/-- Number of `sleep` calls in a trace. -/
def countSleeps : List Effect → Nat
  | [] => 0
  | Effect.sleep _ :: es => countSleeps es + 1
  | _ :: es => countSleeps es

/-- The durations of the `sleep` calls, in call order. -/
def sleepDurations : List Effect → List Nat
  | [] => []
  | Effect.sleep s :: es => s :: sleepDurations es
  | _ :: es => sleepDurations es

/-! ## Generic trace lemmas -/

theorem countCreateHsm_append (l1 l2 : List Effect) :
    countCreateHsm (l1 ++ l2) = countCreateHsm l1 + countCreateHsm l2 := by
  induction l1 with
  | nil => simp [countCreateHsm]
  | cons e es ih => cases e <;> simp [countCreateHsm, ih] <;> omega

theorem countDeleteHsm_append (l1 l2 : List Effect) :
    countDeleteHsm (l1 ++ l2) = countDeleteHsm l1 + countDeleteHsm l2 := by
  induction l1 with
  | nil => simp [countDeleteHsm]
  | cons e es ih => cases e <;> simp [countDeleteHsm, ih] <;> omega

theorem countSleeps_append (l1 l2 : List Effect) :
    countSleeps (l1 ++ l2) = countSleeps l1 + countSleeps l2 := by
  induction l1 with
  | nil => simp [countSleeps]
  | cons e es ih => cases e <;> simp [countSleeps, ih] <;> omega

theorem sleepDurations_append (l1 l2 : List Effect) :
    sleepDurations (l1 ++ l2) = sleepDurations l1 ++ sleepDurations l2 := by
  induction l1 with
  | nil => simp [sleepDurations]
  | cons e es ih => cases e <;> simp [sleepDurations, ih]

theorem deletedIds_append (l1 l2 : List Effect) :
    deletedIds (l1 ++ l2) = deletedIds l1 ++ deletedIds l2 := by
  induction l1 with
  | nil => simp [deletedIds]
  | cons e es ih => cases e <;> simp [deletedIds, ih]

theorem countCreateHsm_cons_print (m : String) (es : List Effect) :
    countCreateHsm (Effect.print m :: es) = countCreateHsm es := rfl

theorem countDeleteHsm_cons_print (m : String) (es : List Effect) :
    countDeleteHsm (Effect.print m :: es) = countDeleteHsm es := rfl

theorem deletedIds_cons_print (m : String) (es : List Effect) :
    deletedIds (Effect.print m :: es) = deletedIds es := rfl

theorem getLastAppendSingleton {α : Type} (l : List α) (a : α) :
    (l ++ [a]).getLast? = some a := by
  induction l with
  | nil => rfl
  | cons x xs ih =>
    rw [List.cons_append]
    cases hxs : xs ++ [a] with
    | nil => exact absurd hxs (by simp)
    | cons y ys => rw [List.getLast?_cons_cons, ← hxs, ih]

/-! ## Polling loop lemmas -/

/-- The trace left by a polling loop that runs `n` full iterations. -/
def sleepBlock (msg : String) (interval : Nat) : Nat → List Effect
  | 0 => []
  | n + 1 => Effect.print msg :: Effect.sleep interval :: sleepBlock msg interval n

theorem countSleeps_sleepBlock (msg : String) (interval : Nat) :
    ∀ n, countSleeps (sleepBlock msg interval n) = n := by
  intro n
  induction n with
  | zero => rfl
  | succ k ih => simp [sleepBlock, countSleeps, ih]

theorem sleepDurations_sleepBlock (msg : String) (interval : Nat) :
    ∀ n, sleepDurations (sleepBlock msg interval n) = List.replicate n interval := by
  intro n
  induction n with
  | zero => rfl
  | succ k ih => simp [sleepBlock, sleepDurations, ih, List.replicate_succ]

theorem countCreateHsm_sleepBlock (msg : String) (interval : Nat) :
    ∀ n, countCreateHsm (sleepBlock msg interval n) = 0 := by
  intro n
  induction n with
  | zero => rfl
  | succ k ih => simp [sleepBlock, countCreateHsm, ih]

/-- A poll whose check never errors returns normally. -/
theorem pollFrom_no_error (check : Nat → Except PyErr Bool) (msg : String) (interval : Nat)
    (hc : ∀ n, ∃ b, check n = Except.ok b) :
    ∀ remaining counter, (pollFrom check msg interval counter remaining).2 = none := by
  intro remaining
  induction remaining with
  | zero =>
    intro counter
    obtain ⟨b, hb⟩ := hc counter
    cases b <;> simp [pollFrom, hb]
  | succ r ih =>
    intro counter
    obtain ⟨b, hb⟩ := hc counter
    cases b <;> simp [pollFrom, hb, ih]

/-- A poll emits no create_hsm calls. -/
theorem pollFrom_countCreate (check : Nat → Except PyErr Bool) (msg : String) (interval : Nat) :
    ∀ remaining counter, countCreateHsm (pollFrom check msg interval counter remaining).1 = 0 := by
  intro remaining
  induction remaining with
  | zero =>
    intro counter
    cases hb : check counter with
    | error e => simp [pollFrom, hb, countCreateHsm]
    | ok b => cases b <;> simp [pollFrom, hb, countCreateHsm]
  | succ r ih =>
    intro counter
    cases hb : check counter with
    | error e => simp [pollFrom, hb, countCreateHsm]
    | ok b => cases b <;> simp [pollFrom, hb, countCreateHsm, ih]

/-- A poll whose check always reports "not in the requested state" runs all
its remaining iterations and then gives up silently. -/
theorem pollFrom_stuck (check : Nat → Except PyErr Bool) (msg : String) (interval : Nat)
    (hc : ∀ n, check n = Except.ok false) :
    ∀ remaining counter,
      pollFrom check msg interval counter remaining =
        (sleepBlock msg interval remaining, none) := by
  intro remaining
  induction remaining with
  | zero => intro counter; simp [pollFrom, hc counter, sleepBlock]
  | succ r ih => intro counter; simp [pollFrom, hc counter, sleepBlock, ih]

/-! ## Loop specifications -/

/-- The scale-down loop deletes exactly the first `n` listed HSM IDs. -/
theorem deleteLoop_spec (cid : String) :
    ∀ (hsms : List Hsm) (n : Nat), n ≤ hsms.length →
      (deleteLoop cid hsms n).2 = none ∧
      deletedIds (deleteLoop cid hsms n).1 = (hsms.take n).map (fun h => h.hsmId) ∧
      countDeleteHsm (deleteLoop cid hsms n).1 = n ∧
      countCreateHsm (deleteLoop cid hsms n).1 = 0 := by
  intro hsms
  induction hsms with
  | nil =>
    intro n hn
    have : n = 0 := Nat.le_zero.mp hn
    subst this
    exact ⟨rfl, rfl, rfl, rfl⟩
  | cons h rest ih =>
    intro n hn
    cases n with
    | zero => exact ⟨rfl, rfl, rfl, rfl⟩
    | succ m =>
      have hm : m ≤ rest.length := by simpa using hn
      obtain ⟨h2, hids, hcnt, hcr⟩ := ih m hm
      refine ⟨by simpa [deleteLoop] using h2, ?_, ?_, ?_⟩
      · simp [deleteLoop, deletedIds, hids]
      · simp [deleteLoop, countDeleteHsm, hcnt]
      · simp [deleteLoop, countCreateHsm, hcr]

/-- With the name `cluster_az` bound and polls that never raise, the
scale-up loop runs all its iterations and issues one `create_hsm` call
per iteration. -/
theorem createLoop_count (az cid : String) (newHsmId : Nat → String)
    (hsmPoll : Nat → Nat → World)
    (hp : ∀ i n, ∃ b, check_hsm_state (hsmPoll i n) cid (newHsmId i) "ACTIVE" = Except.ok b) :
    ∀ remaining i,
      (createLoopAux (some az) cid newHsmId hsmPoll i remaining).2 = none ∧
      countCreateHsm (createLoopAux (some az) cid newHsmId hsmPoll i remaining).1 =
        remaining := by
  intro remaining
  induction remaining with
  | zero => intro i; exact ⟨rfl, rfl⟩
  | succ r ih =>
    intro i
    have hcheck : ∀ n, ∃ b, hsmActiveCheck hsmPoll cid newHsmId i n = Except.ok b := by
      intro n
      obtain ⟨b, hb⟩ := hp i n
      exact ⟨pyTruthy b, by simp [hsmActiveCheck, hb, Except.map]⟩
    have hpe := pollFrom_no_error (hsmActiveCheck hsmPoll cid newHsmId i)
      (hsmWaitMsg (newHsmId i)) 60 hcheck 15 0
    have hpc := pollFrom_countCreate (hsmActiveCheck hsmPoll cid newHsmId i)
      (hsmWaitMsg (newHsmId i)) 60 15 0
    obtain ⟨ih2, ihc⟩ := ih (i + 1)
    constructor
    · simp [createLoopAux, hpe, ih2]
    · simp [createLoopAux, hpe, countCreateHsm_append, countCreateHsm, hpc, ihc]

/-- An HsmId that matches no listed HSM makes the lookup loop fall through. -/
theorem hsmStateLookup_not_found (hid st : String) :
    ∀ (hsms : List Hsm), (∀ h ∈ hsms, h.hsmId ≠ hid) →
      hsmStateLookup hsms hid st = none := by
  intro hsms
  induction hsms with
  | nil => intro _; rfl
  | cons h rest ih =>
    intro hmem
    have hne : (h.hsmId == hid) = false :=
      beq_eq_false_iff_ne.mpr (hmem h (by simp))
    simp only [hsmStateLookup, hne, if_false]
    exact ih (fun x hx => hmem x (by simp [hx]))

/-- When the current count differs from the target and the
uninitialized-single-HSM guard does not fire, `set_cluster_hsm_count`
reaches the scale branches of the elif chain. -/
theorem set_count_scale_path (w guardW : World) (azEnv : Option String)
    (newHsmId : Nat → String) (hsmPoll : Nat → Nat → World) (cid : String)
    (cluster_hsm_count : Nat) (c : Cluster) (rest : List Cluster)
    (hf : describeCluster w cid = c :: rest)
    (hne : c.hsms.length ≠ cluster_hsm_count)
    (hguard : c.hsms.length = 1 →
      check_cluster_state guardW cid "UNINITIALIZED" = Except.ok false) :
    set_cluster_hsm_count w guardW azEnv newHsmId hsmPoll (some cid) cluster_hsm_count =
      if c.hsms.length < cluster_hsm_count then
        (Effect.print (lowerMsg cid) ::
          (createLoopAux azEnv cid newHsmId hsmPoll 0 cluster_hsm_count).1,
         (createLoopAux azEnv cid newHsmId hsmPoll 0 cluster_hsm_count).2)
      else if cluster_hsm_count < c.hsms.length then
        (Effect.print (higherMsg cid) ::
          (deleteLoop cid c.hsms (c.hsms.length - cluster_hsm_count)).1,
         (deleteLoop cid c.hsms (c.hsms.length - cluster_hsm_count)).2)
      else ([], none) := by
  by_cases h1 : c.hsms.length = 1
  · have hne1 : (1 : Nat) ≠ cluster_hsm_count := h1 ▸ hne
    simp [set_cluster_hsm_count, hf, h1, hne1, hguard h1]
  · simp [set_cluster_hsm_count, hf, hne, h1]

/-! ## Concrete control-plane states used in witnesses -/

/-- One active cluster with two active HSM instances. -/
def wTwoHsms : World :=
  ⟨[⟨"c1", "ACTIVE", [⟨"h1", "ACTIVE"⟩, ⟨"h2", "ACTIVE"⟩]⟩]⟩

/-- One uninitialized cluster with its single bootstrap HSM. -/
def wOneHsm : World :=
  ⟨[⟨"c1", "UNINITIALIZED", [⟨"h1", "CREATE_IN_PROGRESS"⟩]⟩]⟩

/-- One active cluster with five active HSM instances. -/
def wFiveHsms : World :=
  ⟨[⟨"c1", "ACTIVE",
     [⟨"h1", "ACTIVE"⟩, ⟨"h2", "ACTIVE"⟩, ⟨"h3", "ACTIVE"⟩,
      ⟨"h4", "ACTIVE"⟩, ⟨"h5", "ACTIVE"⟩]⟩]⟩

/-! ## Claims -/

/-- C8: when the current HSM count equals the target, `set_cluster_hsm_count`
only prints the no-op message: it issues zero `create_hsm` and zero
`delete_hsm` calls and returns normally, leaving the remote HSM set
untouched. -/
theorem c8_equal_count_is_noop (w guardW : World) (azEnv : Option String)
    (newHsmId : Nat → String) (hsmPoll : Nat → Nat → World) (cid : String)
    (cluster_hsm_count : Nat) (c : Cluster) (rest : List Cluster)
    (hf : describeCluster w cid = c :: rest)
    (heq : c.hsms.length = cluster_hsm_count) :
    set_cluster_hsm_count w guardW azEnv newHsmId hsmPoll (some cid) cluster_hsm_count =
      ([Effect.print (noNewMsg cid)], none) ∧
    countCreateHsm (set_cluster_hsm_count w guardW azEnv newHsmId hsmPoll (some cid)
      cluster_hsm_count).1 = 0 ∧
    countDeleteHsm (set_cluster_hsm_count w guardW azEnv newHsmId hsmPoll (some cid)
      cluster_hsm_count).1 = 0 := by
  have hmain : set_cluster_hsm_count w guardW azEnv newHsmId hsmPoll (some cid)
      cluster_hsm_count = ([Effect.print (noNewMsg cid)], none) := by
    simp [set_cluster_hsm_count, hf, heq]
  exact ⟨hmain, by rw [hmain]; rfl, by rw [hmain]; rfl⟩

/-- C8 witness: two current HSMs, target 2. -/
theorem c8_equal_count_is_noop_witness :
    set_cluster_hsm_count wTwoHsms wTwoHsms globalClusterAz (fun _ => "h-new")
      (fun _ _ => wTwoHsms) (some "c1") 2 = ([Effect.print (noNewMsg "c1")], none) :=
  (c8_equal_count_is_noop wTwoHsms wTwoHsms globalClusterAz (fun _ => "h-new")
    (fun _ _ => wTwoHsms) "c1" 2 ⟨"c1", "ACTIVE", [⟨"h1", "ACTIVE"⟩, ⟨"h2", "ACTIVE"⟩]⟩
    [] rfl rfl).1

/-- C7: a cluster with exactly one HSM that reports UNINITIALIZED and a
target above one takes the "must initialize first" path: only the refusal
message is printed and zero `create_hsm` calls are issued. -/
theorem c7_uninitialized_guard_blocks_scale_up (w guardW : World) (azEnv : Option String)
    (newHsmId : Nat → String) (hsmPoll : Nat → Nat → World) (cid : String)
    (cluster_hsm_count : Nat) (c : Cluster) (rest : List Cluster)
    (hf : describeCluster w cid = c :: rest)
    (h1 : c.hsms.length = 1)
    (hstate : check_cluster_state guardW cid "UNINITIALIZED" = Except.ok true)
    (htgt : 1 < cluster_hsm_count) :
    set_cluster_hsm_count w guardW azEnv newHsmId hsmPoll (some cid) cluster_hsm_count =
      ([Effect.print (mustInitMsg cid)], none) ∧
    countCreateHsm (set_cluster_hsm_count w guardW azEnv newHsmId hsmPoll (some cid)
      cluster_hsm_count).1 = 0 := by
  have hne : (1 : Nat) ≠ cluster_hsm_count := by omega
  have hmain : set_cluster_hsm_count w guardW azEnv newHsmId hsmPoll (some cid)
      cluster_hsm_count = ([Effect.print (mustInitMsg cid)], none) := by
    simp [set_cluster_hsm_count, hf, h1, hne, hstate]
  exact ⟨hmain, by rw [hmain]; rfl⟩

/-- C7 witness: one bootstrap HSM, uninitialized cluster, target 2. -/
theorem c7_uninitialized_guard_blocks_scale_up_witness :
    set_cluster_hsm_count wOneHsm wOneHsm globalClusterAz (fun _ => "h-new")
      (fun _ _ => wOneHsm) (some "c1") 2 = ([Effect.print (mustInitMsg "c1")], none) :=
  (c7_uninitialized_guard_blocks_scale_up wOneHsm wOneHsm globalClusterAz
    (fun _ => "h-new") (fun _ _ => wOneHsm) "c1" 2
    ⟨"c1", "UNINITIALIZED", [⟨"h1", "CREATE_IN_PROGRESS"⟩]⟩ [] rfl rfl rfl
    (by omega)).1

/-- C9: the uninitialized-single-HSM guard also blocks scale-down: with one
current HSM, the cluster reporting UNINITIALIZED and target 0, the guard
branch is reached before the greater-than comparison, so only the refusal
message is printed and zero `delete_hsm` calls are issued. -/
theorem c9_uninitialized_guard_blocks_scale_down (w guardW : World)
    (azEnv : Option String) (newHsmId : Nat → String) (hsmPoll : Nat → Nat → World)
    (cid : String) (c : Cluster) (rest : List Cluster)
    (hf : describeCluster w cid = c :: rest)
    (h1 : c.hsms.length = 1)
    (hstate : check_cluster_state guardW cid "UNINITIALIZED" = Except.ok true) :
    set_cluster_hsm_count w guardW azEnv newHsmId hsmPoll (some cid) 0 =
      ([Effect.print (mustInitMsg cid)], none) ∧
    countDeleteHsm (set_cluster_hsm_count w guardW azEnv newHsmId hsmPoll (some cid)
      0).1 = 0 := by
  have hmain : set_cluster_hsm_count w guardW azEnv newHsmId hsmPoll (some cid) 0 =
      ([Effect.print (mustInitMsg cid)], none) := by
    simp [set_cluster_hsm_count, hf, h1, hstate]
  exact ⟨hmain, by rw [hmain]; rfl⟩

/-- C9 witness: one bootstrap HSM, uninitialized cluster, target 0. -/
theorem c9_uninitialized_guard_blocks_scale_down_witness :
    set_cluster_hsm_count wOneHsm wOneHsm globalClusterAz (fun _ => "h-new")
      (fun _ _ => wOneHsm) (some "c1") 0 = ([Effect.print (mustInitMsg "c1")], none) :=
  (c9_uninitialized_guard_blocks_scale_down wOneHsm wOneHsm globalClusterAz
    (fun _ => "h-new") (fun _ _ => wOneHsm) "c1"
    ⟨"c1", "UNINITIALIZED", [⟨"h1", "CREATE_IN_PROGRESS"⟩]⟩ [] rfl rfl rfl).1

/-- C2: in the scale-up branch the name `cluster_az` has no binding in
scope, so the run raises NameError before issuing any `create_hsm` call:
only the "lower than required" message is printed and the exception
propagates. -/
theorem c2_unbound_cluster_az_aborts_scale_up (w guardW : World)
    (newHsmId : Nat → String) (hsmPoll : Nat → Nat → World) (cid : String)
    (cluster_hsm_count : Nat) (c : Cluster) (rest : List Cluster)
    (hf : describeCluster w cid = c :: rest)
    (hlt : c.hsms.length < cluster_hsm_count)
    (hguard : c.hsms.length = 1 →
      check_cluster_state guardW cid "UNINITIALIZED" = Except.ok false) :
    set_cluster_hsm_count w guardW globalClusterAz newHsmId hsmPoll (some cid)
      cluster_hsm_count =
      ([Effect.print (lowerMsg cid)], some (PyErr.nameError "cluster_az")) ∧
    countCreateHsm (set_cluster_hsm_count w guardW globalClusterAz newHsmId hsmPoll
      (some cid) cluster_hsm_count).1 = 0 := by
  obtain ⟨k, hk⟩ : ∃ k, cluster_hsm_count = k + 1 := ⟨cluster_hsm_count - 1, by omega⟩
  subst hk
  have hpath := set_count_scale_path w guardW globalClusterAz newHsmId hsmPoll cid
    (k + 1) c rest hf (by omega) hguard
  rw [if_pos hlt] at hpath
  have hloop : createLoopAux globalClusterAz cid newHsmId hsmPoll 0 (k + 1) =
      ([], some (PyErr.nameError "cluster_az")) := by
    simp [createLoopAux, globalClusterAz]
  rw [hloop] at hpath
  have hmain : set_cluster_hsm_count w guardW globalClusterAz newHsmId hsmPoll
      (some cid) (k + 1) =
      ([Effect.print (lowerMsg cid)], some (PyErr.nameError "cluster_az")) := hpath
  exact ⟨hmain, by rw [hmain]; rfl⟩

/-- C2 witness: two current HSMs, target 3, real (empty) global binding. -/
theorem c2_unbound_cluster_az_aborts_scale_up_witness :
    set_cluster_hsm_count wTwoHsms wTwoHsms globalClusterAz (fun _ => "h-new")
      (fun _ _ => wTwoHsms) (some "c1") 3 =
      ([Effect.print (lowerMsg "c1")], some (PyErr.nameError "cluster_az")) :=
  (c2_unbound_cluster_az_aborts_scale_up wTwoHsms wTwoHsms (fun _ => "h-new")
    (fun _ _ => wTwoHsms) "c1" 3 ⟨"c1", "ACTIVE", [⟨"h1", "ACTIVE"⟩, ⟨"h2", "ACTIVE"⟩]⟩
    [] rfl (by decide) (fun h => absurd h (by decide))).1

/-- C3 as stated is false on the code: with 2 current HSMs and target 5 the
run issues zero `create_hsm` calls, not 5 — the first loop iteration dies on
the unbound name `cluster_az` before any creation request goes out. -/
theorem c3_counterexample_two_to_five :
    countCreateHsm (set_cluster_hsm_count wTwoHsms wTwoHsms globalClusterAz
      (fun _ => "h-new") (fun _ _ => wTwoHsms) (some "c1") 5).1 ≠ 5 ∧
    countCreateHsm (set_cluster_hsm_count wTwoHsms wTwoHsms globalClusterAz
      (fun _ => "h-new") (fun _ _ => wTwoHsms) (some "c1") 5).1 = 0 := by
  decide

/-- C3 (amended): the scale-up loop is bounded by the full target count, not
by `target - current`: once the name `cluster_az` is bound to an
availability zone, a scale-up from any current count below the target
issues exactly `target` create_hsm calls and returns normally (assuming the
status polls answer without raising). -/
theorem c3_amended_loop_runs_target_times (w guardW : World) (az : String)
    (newHsmId : Nat → String) (hsmPoll : Nat → Nat → World) (cid : String)
    (cluster_hsm_count : Nat) (c : Cluster) (rest : List Cluster)
    (hf : describeCluster w cid = c :: rest)
    (hlt : c.hsms.length < cluster_hsm_count)
    (hguard : c.hsms.length = 1 →
      check_cluster_state guardW cid "UNINITIALIZED" = Except.ok false)
    (hp : ∀ i n, ∃ b,
      check_hsm_state (hsmPoll i n) cid (newHsmId i) "ACTIVE" = Except.ok b) :
    countCreateHsm (set_cluster_hsm_count w guardW (some az) newHsmId hsmPoll
      (some cid) cluster_hsm_count).1 = cluster_hsm_count ∧
    (set_cluster_hsm_count w guardW (some az) newHsmId hsmPoll
      (some cid) cluster_hsm_count).2 = none := by
  have hpath := set_count_scale_path w guardW (some az) newHsmId hsmPoll cid
    cluster_hsm_count c rest hf (by omega) hguard
  rw [if_pos hlt] at hpath
  obtain ⟨hnone, hcnt⟩ := createLoop_count az cid newHsmId hsmPoll hp cluster_hsm_count 0
  rw [hpath]
  constructor
  · rw [show (Effect.print (lowerMsg cid) ::
        (createLoopAux (some az) cid newHsmId hsmPoll 0 cluster_hsm_count).1,
        (createLoopAux (some az) cid newHsmId hsmPoll 0 cluster_hsm_count).2).1 =
        Effect.print (lowerMsg cid) ::
        (createLoopAux (some az) cid newHsmId hsmPoll 0 cluster_hsm_count).1 from rfl,
      countCreateHsm_cons_print]
    exact hcnt
  · exact hnone

/-- A poll world in which the freshly created HSM is already ACTIVE. -/
def wNewActive : Nat → Nat → World :=
  fun _ _ => ⟨[⟨"c1", "ACTIVE", [⟨"h-new", "ACTIVE"⟩]⟩]⟩

/-- C3 (amended) witness: two current HSMs, target 3, az bound: exactly 3
create calls. -/
theorem c3_amended_loop_runs_target_times_witness :
    countCreateHsm (set_cluster_hsm_count wTwoHsms wTwoHsms (some "us-east-1a")
      (fun _ => "h-new") wNewActive (some "c1") 3).1 = 3 ∧
    (set_cluster_hsm_count wTwoHsms wTwoHsms (some "us-east-1a")
      (fun _ => "h-new") wNewActive (some "c1") 3).2 = none :=
  c3_amended_loop_runs_target_times wTwoHsms wTwoHsms "us-east-1a"
    (fun _ => "h-new") wNewActive "c1" 3
    ⟨"c1", "ACTIVE", [⟨"h1", "ACTIVE"⟩, ⟨"h2", "ACTIVE"⟩]⟩ [] rfl (by decide)
    (fun h => absurd h (by decide)) (fun _ _ => ⟨some true, rfl⟩)

/-- C4: scale-down issues exactly `current - target` delete_hsm calls, whose
victims are exactly the first `current - target` HsmIds in the order of the
HSM array listed at entry, and the branch returns normally. -/
theorem c4_scale_down_deletes_first_listed (w guardW : World) (azEnv : Option String)
    (newHsmId : Nat → String) (hsmPoll : Nat → Nat → World) (cid : String)
    (cluster_hsm_count : Nat) (c : Cluster) (rest : List Cluster)
    (hf : describeCluster w cid = c :: rest)
    (hgt : cluster_hsm_count < c.hsms.length)
    (hguard : c.hsms.length = 1 →
      check_cluster_state guardW cid "UNINITIALIZED" = Except.ok false) :
    countDeleteHsm (set_cluster_hsm_count w guardW azEnv newHsmId hsmPoll (some cid)
      cluster_hsm_count).1 = c.hsms.length - cluster_hsm_count ∧
    deletedIds (set_cluster_hsm_count w guardW azEnv newHsmId hsmPoll (some cid)
      cluster_hsm_count).1 =
      (c.hsms.take (c.hsms.length - cluster_hsm_count)).map (fun h => h.hsmId) ∧
    (set_cluster_hsm_count w guardW azEnv newHsmId hsmPoll (some cid)
      cluster_hsm_count).2 = none := by
  have hpath := set_count_scale_path w guardW azEnv newHsmId hsmPoll cid
    cluster_hsm_count c rest hf (by omega) hguard
  rw [if_neg (by omega), if_pos hgt] at hpath
  obtain ⟨h2, hids, hcnt, _⟩ := deleteLoop_spec cid c.hsms
    (c.hsms.length - cluster_hsm_count) (by omega)
  rw [hpath]
  refine ⟨?_, ?_, h2⟩
  · rw [show (Effect.print (higherMsg cid) ::
        (deleteLoop cid c.hsms (c.hsms.length - cluster_hsm_count)).1,
        (deleteLoop cid c.hsms (c.hsms.length - cluster_hsm_count)).2).1 =
        Effect.print (higherMsg cid) ::
        (deleteLoop cid c.hsms (c.hsms.length - cluster_hsm_count)).1 from rfl,
      countDeleteHsm_cons_print]
    exact hcnt
  · rw [show (Effect.print (higherMsg cid) ::
        (deleteLoop cid c.hsms (c.hsms.length - cluster_hsm_count)).1,
        (deleteLoop cid c.hsms (c.hsms.length - cluster_hsm_count)).2).1 =
        Effect.print (higherMsg cid) ::
        (deleteLoop cid c.hsms (c.hsms.length - cluster_hsm_count)).1 from rfl,
      deletedIds_cons_print]
    exact hids

/-- C4 witness: five current HSMs, target 2: exactly 3 deletes, victims
h1, h2, h3 in listing order. -/
theorem c4_scale_down_deletes_first_listed_witness :
    countDeleteHsm (set_cluster_hsm_count wFiveHsms wFiveHsms globalClusterAz
      (fun _ => "h-new") (fun _ _ => wFiveHsms) (some "c1") 2).1 = 3 ∧
    deletedIds (set_cluster_hsm_count wFiveHsms wFiveHsms globalClusterAz
      (fun _ => "h-new") (fun _ _ => wFiveHsms) (some "c1") 2).1 =
      ["h1", "h2", "h3"] ∧
    (set_cluster_hsm_count wFiveHsms wFiveHsms globalClusterAz
      (fun _ => "h-new") (fun _ _ => wFiveHsms) (some "c1") 2).2 = none :=
  c4_scale_down_deletes_first_listed wFiveHsms wFiveHsms globalClusterAz
    (fun _ => "h-new") (fun _ _ => wFiveHsms) "c1" 2
    ⟨"c1", "ACTIVE",
     [⟨"h1", "ACTIVE"⟩, ⟨"h2", "ACTIVE"⟩, ⟨"h3", "ACTIVE"⟩,
      ⟨"h4", "ACTIVE"⟩, ⟨"h5", "ACTIVE"⟩]⟩ [] rfl (by decide)
    (fun h => absurd h (by decide))

/-- C5: discovery returns the ID of the first listed cluster whose tag set
contains the key/value pair: when no cluster carries the pair it returns
none (cluster_id stays None), and when exactly one cluster carries it that
cluster's ID is returned regardless of its position in the listing. -/
theorem c5_discover_first_tagged (clusters : List Cluster)
    (listTags : String → List Tag) (key value : String) :
    ((∀ c ∈ clusters, findTagMatch (listTags c.clusterId) key value = false) →
      discoverCluster clusters listTags key value = none) ∧
    (∀ c ∈ clusters, findTagMatch (listTags c.clusterId) key value = true →
      (∀ c2 ∈ clusters, findTagMatch (listTags c2.clusterId) key value = true → c2 = c) →
      discoverCluster clusters listTags key value = some c.clusterId) := by
  induction clusters with
  | nil => exact ⟨fun _ => rfl, by simp⟩
  | cons d rest ih =>
    constructor
    · intro hall
      have hd := hall d (by simp)
      simp only [discoverCluster, hd, Bool.false_eq_true, if_false]
      exact ih.1 (fun c hc => hall c (by simp [hc]))
    · intro c hc hmatch huniq
      by_cases hd : findTagMatch (listTags d.clusterId) key value = true
      · have hdc : d = c := huniq d (by simp) hd
        subst hdc
        simp [discoverCluster, hd]
      · have hd' : findTagMatch (listTags d.clusterId) key value = false := by
          cases hfd : findTagMatch (listTags d.clusterId) key value
          · rfl
          · exact absurd hfd hd
        have hcrest : c ∈ rest := by
          rcases List.mem_cons.mp hc with h | h
          · subst h; exact absurd hmatch hd
          · exact h
        simp only [discoverCluster, hd', Bool.false_eq_true, if_false]
        exact ih.2 c hcrest hmatch (fun c2 hc2 hm2 => huniq c2 (by simp [hc2]) hm2)

/-- Tag oracle for the C5 witness: only cluster c2 carries the pair. -/
def tagOracle : String → List Tag :=
  fun cid => if cid == "c2" then [⟨"team", "crypto"⟩] else []

/-- C5 witness: the tagged cluster sits second in the listing and is still
the one discovered. -/
theorem c5_discover_first_tagged_witness :
    discoverCluster [⟨"c1", "ACTIVE", []⟩, ⟨"c2", "ACTIVE", []⟩] tagOracle
      "team" "crypto" = some "c2" :=
  (c5_discover_first_tagged [⟨"c1", "ACTIVE", []⟩, ⟨"c2", "ACTIVE", []⟩] tagOracle
    "team" "crypto").2 ⟨"c2", "ACTIVE", []⟩ (by simp) (by decide) (by decide)

/-- C10: an hsm_id that appears nowhere in the cluster's listed HSMs makes
check_hsm_state fall through its loop and return None (not True or False),
and the polling caller's loop test `not check_hsm_state(..)` coerces that
falsy None to "not yet in the requested state". -/
theorem c10_missing_hsm_returns_none (w : World) (cid hid st : String)
    (c : Cluster) (rest : List Cluster)
    (hf : describeCluster w cid = c :: rest)
    (hmem : hid ∉ c.hsms.map (fun h => h.hsmId)) :
    check_hsm_state w cid hid st = Except.ok none ∧
    Except.map pyTruthy (check_hsm_state w cid hid st) = Except.ok false := by
  have hall : ∀ h ∈ c.hsms, h.hsmId ≠ hid := by
    intro h hh heq
    exact hmem (List.mem_map.mpr ⟨h, hh, heq⟩)
  have hlook := hsmStateLookup_not_found hid st c.hsms hall
  have hmain : check_hsm_state w cid hid st = Except.ok none := by
    simp [check_hsm_state, hf, hlook]
  exact ⟨hmain, by rw [hmain]; rfl⟩

/-- C10 witness: h-missing is not among h1, h2. -/
theorem c10_missing_hsm_returns_none_witness :
    check_hsm_state wTwoHsms "c1" "h-missing" "ACTIVE" = Except.ok none ∧
    Except.map pyTruthy (check_hsm_state wTwoHsms "c1" "h-missing" "ACTIVE") =
      Except.ok false :=
  c10_missing_hsm_returns_none wTwoHsms "c1" "h-missing" "ACTIVE"
    ⟨"c1", "ACTIVE", [⟨"h1", "ACTIVE"⟩, ⟨"h2", "ACTIVE"⟩]⟩ [] rfl (by decide)

/-- C6: both polling loops are bounded and silently swallow exhaustion.  If
the cluster never reports UNINITIALIZED, init_cluster still returns
normally after exactly 20 sleeps of 10 seconds each and ends by printing
the cluster-ready message; if a created HSM never reports ACTIVE, one
scale-up iteration still returns normally after exactly 15 sleeps of 60
seconds each and ends by printing the HSM-ready message.  No error is
raised in either case. -/
theorem c6_polls_bounded_and_silently_exhausted
    (newClusterId cluster_subnet_id hsm_type az cid : String)
    (clusterPoll : Nat → World) (newHsmId : Nat → String) (hsmPoll : Nat → Nat → World)
    (hA : ∀ n, check_cluster_state (clusterPoll n) newClusterId "UNINITIALIZED" =
      Except.ok false)
    (hB : ∀ n, Except.map pyTruthy
      (check_hsm_state (hsmPoll 0 n) cid (newHsmId 0) "ACTIVE") = Except.ok false) :
    (init_cluster newClusterId clusterPoll cluster_subnet_id hsm_type).2 = none ∧
    countSleeps (init_cluster newClusterId clusterPoll cluster_subnet_id hsm_type).1 =
      20 ∧
    sleepDurations (init_cluster newClusterId clusterPoll cluster_subnet_id hsm_type).1 =
      List.replicate 20 10 ∧
    (init_cluster newClusterId clusterPoll cluster_subnet_id hsm_type).1.getLast? =
      some (Effect.print (clusterReadyMsg newClusterId)) ∧
    (createLoopAux (some az) cid newHsmId hsmPoll 0 1).2 = none ∧
    countSleeps (createLoopAux (some az) cid newHsmId hsmPoll 0 1).1 = 15 ∧
    sleepDurations (createLoopAux (some az) cid newHsmId hsmPoll 0 1).1 =
      List.replicate 15 60 ∧
    (createLoopAux (some az) cid newHsmId hsmPoll 0 1).1.getLast? =
      some (Effect.print (hsmReadyMsg (newHsmId 0))) := by
  have hpollA := pollFrom_stuck
    (fun n => check_cluster_state (clusterPoll n) newClusterId "UNINITIALIZED")
    (clusterWaitMsg newClusterId) 10 hA 20 0
  have hinit : init_cluster newClusterId clusterPoll cluster_subnet_id hsm_type =
      ([Effect.createCluster [cluster_subnet_id] hsm_type,
        Effect.print (createdMsg newClusterId)] ++
        sleepBlock (clusterWaitMsg newClusterId) 10 20 ++
        [Effect.print (clusterReadyMsg newClusterId)], none) := by
    simp [init_cluster, hpollA]
  have hBcheck : ∀ n, hsmActiveCheck hsmPoll cid newHsmId 0 n = Except.ok false := by
    intro n
    show Except.map pyTruthy
      (check_hsm_state (hsmPoll 0 n) cid (newHsmId 0) "ACTIVE") = Except.ok false
    exact hB n
  have hpollB := pollFrom_stuck (hsmActiveCheck hsmPoll cid newHsmId 0)
    (hsmWaitMsg (newHsmId 0)) 60 hBcheck 15 0
  have hcla : createLoopAux (some az) cid newHsmId hsmPoll 0 1 =
      ([Effect.createHsm cid az, Effect.print (creatingHsmMsg (newHsmId 0) cid)] ++
        sleepBlock (hsmWaitMsg (newHsmId 0)) 60 15 ++
        [Effect.print (hsmReadyMsg (newHsmId 0))], none) := by
    simp [createLoopAux, hpollB]
  rw [hinit, hcla]
  refine ⟨rfl, ?_, ?_, ?_, rfl, ?_, ?_, ?_⟩
  · simp [countSleeps_append, countSleeps, countSleeps_sleepBlock]
  · simp [sleepDurations_append, sleepDurations, sleepDurations_sleepBlock]
  · exact getLastAppendSingleton _ _
  · simp [countSleeps_append, countSleeps, countSleeps_sleepBlock]
  · simp [sleepDurations_append, sleepDurations, sleepDurations_sleepBlock]
  · exact getLastAppendSingleton _ _

/-- A world in which cluster c1 never leaves CREATE_IN_PROGRESS and its HSM
listing never contains the freshly created HSM. -/
def wStuck : World :=
  ⟨[⟨"c1", "CREATE_IN_PROGRESS", [⟨"h1", "CREATE_IN_PROGRESS"⟩]⟩]⟩

/-- C6 witness: a cluster that never turns UNINITIALIZED and an HSM that
never turns ACTIVE still let both loops finish silently after their
ceilings. -/
theorem c6_polls_bounded_and_silently_exhausted_witness :
    countSleeps (init_cluster "c1" (fun _ => wStuck) "subnet-1" "hsm1.medium").1 = 20 ∧
    (init_cluster "c1" (fun _ => wStuck) "subnet-1" "hsm1.medium").2 = none ∧
    countSleeps (createLoopAux (some "az-1") "c1" (fun _ => "h-new")
      (fun _ _ => wStuck) 0 1).1 = 15 ∧
    (createLoopAux (some "az-1") "c1" (fun _ => "h-new")
      (fun _ _ => wStuck) 0 1).2 = none := by
  have h := c6_polls_bounded_and_silently_exhausted "c1" "subnet-1" "hsm1.medium"
    "az-1" "c1" (fun _ => wStuck) (fun _ => "h-new") (fun _ _ => wStuck)
    (fun _ => rfl) (fun _ => rfl)
  exact ⟨h.2.1, h.1, h.2.2.2.2.2.1, h.2.2.2.2.1⟩

/-- The control plane before the C1 run: no clusters exist, so discovery
finds nothing. -/
def emptyWorld : World := ⟨[]⟩

/-- After the creation request of the C1 run, the new cluster is visible
and UNINITIALIZED from the first poll on. -/
def newClusterUp : Nat → World :=
  fun _ => ⟨[⟨"cluster-new", "UNINITIALIZED", []⟩]⟩

/-- C1 fails on the code: on a run where discovery finds no tagged cluster,
create_cluster does request a new cluster, but init_cluster returns None
(its body has no return statement), so the caller's cluster_id stays None.
The subsequent set_cluster_tags call therefore passes ResourceId None to
tag_resource, which dies on client-side parameter validation: the run ends
right after the creation polling — no resource is ever tagged (taggedIds is
empty, not [some "cluster-new"]) and set_cluster_hsm_count is never
invoked (no create_hsm or delete_hsm effect), instead of the tagging and
reconciliation operating on the new cluster's ID as the claim states. -/
theorem c1_new_cluster_id_not_propagated :
    create_cluster emptyWorld (fun _ => []) "cluster-new" newClusterUp
      emptyWorld emptyWorld globalClusterAz (fun _ => "h-new") (fun _ _ => emptyWorld)
      "team" "crypto" "subnet-1" "az-1" 2 =
      ([Effect.print (checkingMsg "team" "crypto"), Effect.print notFoundMsg,
        Effect.createCluster ["subnet-1"] "hsm1.medium",
        Effect.print (createdMsg "cluster-new"),
        Effect.print (clusterReadyMsg "cluster-new")],
       some PyErr.paramValidationError) ∧
    taggedIds (create_cluster emptyWorld (fun _ => []) "cluster-new" newClusterUp
      emptyWorld emptyWorld globalClusterAz (fun _ => "h-new") (fun _ _ => emptyWorld)
      "team" "crypto" "subnet-1" "az-1" 2).1 = [] ∧
    countCreateHsm (create_cluster emptyWorld (fun _ => []) "cluster-new" newClusterUp
      emptyWorld emptyWorld globalClusterAz (fun _ => "h-new") (fun _ _ => emptyWorld)
      "team" "crypto" "subnet-1" "az-1" 2).1 = 0 ∧
    countDeleteHsm (create_cluster emptyWorld (fun _ => []) "cluster-new" newClusterUp
      emptyWorld emptyWorld globalClusterAz (fun _ => "h-new") (fun _ _ => emptyWorld)
      "team" "crypto" "subnet-1" "az-1" 2).1 = 0 := by
  decide
